import Mathlib

/-!
Verification of the structural summarization and round-trip benchmark harness
(`benchmark_parsers.py`, `benchmark_PDBParser.py`) against its specification.

Python strings are modelled as `List Char` so that every operation the scripts
perform on them (suffix tests, stem extraction, lexicographic sorting,
whitespace stripping) is an executable structural recursion.
-/

namespace BioPDB

/-- Python strings, modelled as lists of characters. -/
abbrev PyStr := List Char

/-- Coerce a Lean string literal to the Python-string model. -/
def str (s : String) : PyStr := s.data

/-- Lexicographic order on strings by code point, as Python `sorted` uses. -/
def lexLe : PyStr → PyStr → Bool
  | [], _ => true
  | _ :: _, [] => false
  | a :: as, b :: bs => if a = b then lexLe as bs else decide (a.toNat < b.toNat)

/-- Insert into a lexicographically sorted list of strings. -/
def insertSorted (x : PyStr) : List PyStr → List PyStr
  | [] => [x]
  | y :: ys => if lexLe x y then x :: y :: ys else y :: insertSorted x ys

/-- Python `sorted` on a list of path strings. -/
def sortStrs (l : List PyStr) : List PyStr := l.foldr insertSorted []

/-- Python `s.endswith(suf)`. -/
def pyEndsWith (s suf : PyStr) : Bool := s.drop (s.length - suf.length) == suf

/-- Characters stripped by Python `str.strip()`. -/
def isSpaceCh (c : Char) : Bool := c == ' ' || c == '\t' || c == '\n' || c == '\r'

/-- Python `str.strip()`: drop whitespace from both ends. -/
def pyStrip (s : PyStr) : PyStr :=
  ((s.dropWhile isSpaceCh).reverse.dropWhile isSpaceCh).reverse

/-- Python `pathlib.PurePath.stem`: the file name without its last suffix
(for names containing a non-leading dot). -/
def stem (s : PyStr) : PyStr :=
  let r := s.reverse
  if r.contains '.' then ((r.dropWhile (fun c => c ≠ '.')).drop 1).reverse else s

/-- Python `path.with_suffix(suffix)`: replace the last suffix. -/
def with_suffix (p suffix : PyStr) : PyStr := stem p ++ suffix

/-- Decimal digit character. -/
def digitChar (n : Nat) : Char := Char.ofNat (48 + n)

/-- Fuelled decimal rendering helper. -/
def natDigitsAux : Nat → Nat → PyStr
  | 0, _ => []
  | fuel + 1, n =>
    if n < 10 then [digitChar n]
    else natDigitsAux fuel (n / 10) ++ [digitChar (n % 10)]

/-- Python `str(n)` for a non-negative integer. -/
def pyNat (n : Nat) : PyStr := natDigitsAux (n + 1) n

/-! ## The Bio.PDB structure data model (external collaborator, §3 of the spec)

`benchmark_parsers.py` touches exactly these parts of a parsed structure:
models, chains, residue entries (possibly disordered point-mutation groups
with `is_disordered() == 2` and `disordered_get_list()`), each residue's id
fields `id[0]` (hetfield) and `id[2]` (insertion code), and each atom's
`altloc` string from `get_unpacked_list()`. -/

/-- An atom as seen by the harness: only its `altloc` code is read. -/
structure Atom where
  altloc : PyStr
deriving DecidableEq, Repr

/-- A (non-disordered) residue: its id fields and unpacked atom list.
`hetfield` is `id[0]`; `icode` is `id[2]`; `atoms` is `get_unpacked_list()`. -/
structure Residue where
  hetfield : PyStr
  icode : Char
  atoms : List Atom
deriving DecidableEq, Repr

/-- A residue slot in a chain: either a plain residue or a disordered
point-mutation group (`is_disordered() == 2`) exposing its variant list. -/
inductive ResidueEntry where
  | ordered (r : Residue)
  | disordered (variants : List Residue)
deriving DecidableEq, Repr

/-- A chain: a list of residue entries. -/
structure Chain where
  residues : List ResidueEntry
deriving DecidableEq, Repr

/-- A model: a list of chains. -/
structure Model where
  chains : List Chain
deriving DecidableEq, Repr

/-- A structure: a list of models. -/
structure Structure where
  models : List Model
deriving DecidableEq, Repr

/-- Python `resid.is_disordered() == 2`. -/
def is_ptmut : ResidueEntry → Bool
  | .ordered _ => false
  | .disordered _ => true

/-- The `children` list of `summarize_structure`: `disordered_get_list()` for a
disordered group, else the singleton `[resid]`. -/
def disordered_children : ResidueEntry → List Residue
  | .ordered r => [r]
  | .disordered vs => vs

/-- The dictionary returned by `summarize_structure`, with its eight counters
in the insertion order of the Python dict literal. -/
@[ext]
structure Fingerprint where
  models : Nat
  chains : Nat
  residues : Nat
  res_icode : Nat
  res_ptmut : Nat
  all_atoms : Nat
  het_atoms : Nat
  altlocs : Nat
deriving DecidableEq, Repr

/-- The all-zero fingerprint (the initial counter values). -/
def fpZero : Fingerprint := ⟨0, 0, 0, 0, 0, 0, 0, 0⟩

/-- Field-wise addition of fingerprints. -/
def fpAdd (f g : Fingerprint) : Fingerprint :=
  ⟨f.models + g.models, f.chains + g.chains, f.residues + g.residues,
   f.res_icode + g.res_icode, f.res_ptmut + g.res_ptmut, f.all_atoms + g.all_atoms,
   f.het_atoms + g.het_atoms, f.altlocs + g.altlocs⟩

/-- Body of the atom loop of `summarize_structure`:
`n_hatoms += int(atom.parent.id[0] != ' ')`, `n_aatoms += 1`,
`n_altloc += int(bool(atom.altloc.strip()))`.  The parent of an unpacked atom
is the enclosing child residue, so `atom.parent.id[0]` is `child.hetfield`. -/
def countAtom (child : Residue) (f : Fingerprint) (atom : Atom) : Fingerprint :=
  { f with
    het_atoms := f.het_atoms + (if child.hetfield ≠ str " " then 1 else 0),
    all_atoms := f.all_atoms + 1,
    altlocs := f.altlocs + (if pyStrip atom.altloc ≠ [] then 1 else 0) }

/-- Body of the child loop of `summarize_structure`:
`n_icodes += int(child.id[2] != ' ')`, `n_resids += 1`, then the atom loop. -/
def countChild (f : Fingerprint) (child : Residue) : Fingerprint :=
  let f1 := { f with
    res_icode := f.res_icode + (if child.icode ≠ ' ' then 1 else 0),
    residues := f.residues + 1 }
  child.atoms.foldl (countAtom child) f1

/-- Body of the residue loop of `summarize_structure`:
`n_ptmuts += int(is_ptmut)` happens once per residue entry (outside the child
loop), then the child loop runs over the entry's children. -/
def countResidueEntry (f : Fingerprint) (resid : ResidueEntry) : Fingerprint :=
  let f1 := { f with res_ptmut := f.res_ptmut + (if is_ptmut resid then 1 else 0) }
  (disordered_children resid).foldl countChild f1

/-- Body of the chain loop of `summarize_structure`: `n_chains += 1`, then the
residue loop. -/
def countChain (f : Fingerprint) (chain : Chain) : Fingerprint :=
  chain.residues.foldl countResidueEntry { f with chains := f.chains + 1 }

/-- `summarize_structure` of `benchmark_parsers.py`.  The model-counting loop
`for model in structure: n_models += 1` leaves the loop variable `model` bound
to the **last** model; the subsequent `for chain in model` loop therefore
traverses the last model.  When the structure has zero models, `model` is never
bound and Python raises `UnboundLocalError`, modelled here as `none`. -/
def summarize_structure (s : Structure) : Option Fingerprint :=
  match s.models.getLast? with
  | none => none
  | some model =>
      some (model.chains.foldl countChain { fpZero with models := s.models.length })

/-! ## Closed-form view of the counters

These definitions are proved equal to the loop bodies above and give each
counter as a sum of per-chain / per-entry / per-child contributions. -/

/-- The `n_altloc` contribution of one atom list. -/
def countAltloc : List Atom → Nat
  | [] => 0
  | a :: as => (if pyStrip a.altloc ≠ [] then 1 else 0) + countAltloc as

/-- The counter contributions of the atom loop for one child residue. -/
def atomsFp (child : Residue) (atoms : List Atom) : Fingerprint :=
  { fpZero with
    all_atoms := atoms.length,
    het_atoms := if child.hetfield ≠ str " " then atoms.length else 0,
    altlocs := countAltloc atoms }

/-- The counter contributions of one child residue (child loop body). -/
def childFp (child : Residue) : Fingerprint :=
  { fpZero with
    residues := 1,
    res_icode := if child.icode ≠ ' ' then 1 else 0,
    all_atoms := child.atoms.length,
    het_atoms := if child.hetfield ≠ str " " then child.atoms.length else 0,
    altlocs := countAltloc child.atoms }

/-- Sum of per-element fingerprint contributions over a list. -/
def listFp {α : Type} (h : α → Fingerprint) : List α → Fingerprint
  | [] => fpZero
  | x :: xs => fpAdd (h x) (listFp h xs)

/-- The counter contributions of one residue entry (residue loop body). -/
def entryFp (e : ResidueEntry) : Fingerprint :=
  fpAdd { fpZero with res_ptmut := if is_ptmut e then 1 else 0 }
    (listFp childFp (disordered_children e))

/-- The counter contributions of one chain (chain loop body). -/
def chainFp (c : Chain) : Fingerprint :=
  fpAdd { fpZero with chains := 1 } (listFp entryFp c.residues)

/-- Well-formedness of a parsed structure: every disordered residue group has
at least one variant.  Bio.PDB builds a `DisorderedResidue` only by adding a
first disordered child to it, so every structure a parser can hand to the
harness satisfies this. -/
def wfStructure (s : Structure) : Prop :=
  ∀ m ∈ s.models, ∀ c ∈ m.chains, ∀ e ∈ c.residues, disordered_children e ≠ []

/-- The four cross-field inequalities of a fingerprint. -/
def FpInv (f : Fingerprint) : Prop :=
  f.het_atoms ≤ f.all_atoms ∧ f.altlocs ≤ f.all_atoms ∧
  f.res_icode ≤ f.residues ∧ f.res_ptmut ≤ f.residues

/-! ## Round-trip comparison (`assert data == data2, f'Summaries differ: ...'`) -/

/-- Python `repr` of the summary dict: braces, quoted keys, decimal values. -/
def renderFp (d : Fingerprint) : PyStr :=
  str "\x7b\x27models\x27: " ++ pyNat d.models ++
  str ", \x27chains\x27: " ++ pyNat d.chains ++
  str ", \x27residues\x27: " ++ pyNat d.residues ++
  str ", \x27res-icode\x27: " ++ pyNat d.res_icode ++
  str ", \x27res-ptmut\x27: " ++ pyNat d.res_ptmut ++
  str ", \x27all-atoms\x27: " ++ pyNat d.all_atoms ++
  str ", \x27het-atoms\x27: " ++ pyNat d.het_atoms ++
  str ", \x27altlocs\x27: " ++ pyNat d.altlocs ++ str "\x7d"

/-- The assertion message `f'Summaries differ: \x7bdata\x7d != \x7bdata2\x7d'`:
it interpolates both complete fingerprints, so it carries every field name with
its two values. -/
def mismatchMsg (data data2 : Fingerprint) : PyStr :=
  str "Summaries differ: " ++ renderFp data ++ str " != " ++ renderFp data2

/-- The round-trip comparison `assert data == data2, f'Summaries differ: ...'`
of `benchmark_parsers.py`: succeeds exactly when the two fingerprints are
equal, otherwise raises `AssertionError` with the interpolated message. -/
def checkRoundTrip (data data2 : Fingerprint) : Except PyStr Unit :=
  if data = data2 then .ok () else .error (mismatchMsg data data2)

/-! ## Input discovery and resume policy of `benchmark_parsers.py` `main` -/

/-- Python `sorted(folder.rglob(pattern))` for a suffix pattern, over a
directory modelled as its list of file names. -/
def rglob (folder : List PyStr) (suffix : PyStr) : List PyStr :=
  sortStrs (folder.filter (fun f => pyEndsWith f suffix))

/-- Python dict insertion: a repeated key overwrites in place, a new key is
appended (dicts preserve insertion order). -/
def dictInsert (d : List (PyStr × PyStr)) (k v : PyStr) : List (PyStr × PyStr) :=
  if d.any (fun p => p.1 == k) then d.map (fun p => if p.1 == k then (k, v) else p)
  else d ++ [(k, v)]

/-- The dict comprehension `{f.stem: f for f in files}`. -/
def stemDict (files : List PyStr) : List (PyStr × PyStr) :=
  files.foldl (fun d f => dictInsert d (stem f) f) []

/-- Keys of a modelled dict. -/
def dictKeys (d : List (PyStr × PyStr)) : List PyStr := d.map Prod.fst

/-- Lookup in a modelled dict (the scripts only look up present keys). -/
def dictGet (d : List (PyStr × PyStr)) (k : PyStr) : PyStr :=
  ((d.find? (fun p => p.1 == k)).map Prod.snd).getD []

/-- The work-queue computation of `benchmark_parsers.py` `main`: glob and sort
`*.gz` inputs and `*.xml` result artifacts; unless `--no-continue` was given
and some artifacts exist, keep only the inputs whose stem has no artifact stem,
sorted.  `set(fset.keys()) - set(xmlset.keys())` followed by `sorted(...)` is
modelled as a stem filter followed by the same sort (dict keys are unique). -/
def buildQueue (no_continue : Bool) (folder : List PyStr) : List PyStr :=
  let flist := rglob folder (str ".gz")
  let xmllist := rglob folder (str ".xml")
  if !no_continue && !xmllist.isEmpty then
    let xmlset := stemDict xmllist
    let fset := stemDict flist
    let remainder := (dictKeys fset).filter (fun k => !((dictKeys xmlset).contains k))
    sortStrs (remainder.map (dictGet fset))
  else
    flist

/-! ## Per-item processing and the batch loops

The external parser/writer stages are a collaborator boundary (§6 of the
spec); an oracle says, per input file, how they behave.  The filesystem is a
map from path to content. -/

/-- Error raised by Python code: `str(err)` and `traceback.format_exc()`. -/
structure PyError where
  msg : PyStr
  trace : PyStr
deriving DecidableEq, Repr

/-- Contents of a file the harness writes. -/
inductive FileContent where
  | failureReport (msg trace : PyStr)
  | successReport (attrs : List (PyStr × PyStr)) (children : List (PyStr × Nat))
  | tempFile
deriving DecidableEq, Repr

/-- A filesystem: association list from path to content. -/
abbrev FS := List (PyStr × FileContent)

/-- Write (create or overwrite) a file. -/
def fsWrite (fs : FS) (p : PyStr) (c : FileContent) : FS :=
  (fs.filter (fun q => !(q.1 == p))) ++ [(p, c)]

/-- Remove a file (no-op when absent). -/
def fsRemove (fs : FS) (p : PyStr) : FS := fs.filter (fun q => !(q.1 == p))

/-- Does a path exist? -/
def fsHas (fs : FS) (p : PyStr) : Bool := fs.any (fun q => q.1 == p)

/-- Content at a path. -/
def fsGet (fs : FS) (p : PyStr) : Option FileContent :=
  (fs.find? (fun q => q.1 == p)).map Prod.snd

/-- Modelled `traceback.format_exc()` for an in-harness `AssertionError`: the
runtime-generated traceback text, which always begins with the fixed header
line and ends with the exception message. -/
def assertTrace (m : PyStr) : PyStr := str "Traceback (most recent call last):" ++ m

/-- Behaviour of the external parse/summarize/write/reparse stages for one
input of `benchmark_parsers.py`: either every stage succeeds (yielding the
two fingerprints and the timing strings, with the transient file written), or
some stage raises before `writer.save('io.temp')` ran, or after it. -/
inductive RunOutcome where
  | ok (read_time write_time : PyStr) (data data2 : Fingerprint)
  | failBeforeWrite (e : PyError)
  | failAfterWrite (e : PyError)
deriving Repr

/-- The `try` block of the per-item loop of `benchmark_parsers.py`: external
stages per the oracle, then the internal round-trip assertion. -/
def tryBlockBP (o : RunOutcome) (fs : FS) :
    FS × Except PyError (PyStr × PyStr × Fingerprint) :=
  match o with
  | .failBeforeWrite e => (fs, .error e)
  | .failAfterWrite e => (fsWrite fs (str "io.temp") .tempFile, .error e)
  | .ok rt wt data data2 =>
    let fs1 := fsWrite fs (str "io.temp") .tempFile
    match checkRoundTrip data data2 with
    | .ok _ => (fs1, .ok (rt, wt, data))
    | .error m => (fs1, .error ⟨m, assertTrace m⟩)

/-- The per-fingerprint-field report children, in the stable insertion order
of the summary dict (`for key, value in data.items()`). -/
def fingerprintItems (d : Fingerprint) : List (PyStr × Nat) :=
  [(str "models", d.models), (str "chains", d.chains), (str "residues", d.residues),
   (str "res-icode", d.res_icode), (str "res-ptmut", d.res_ptmut),
   (str "all-atoms", d.all_atoms), (str "het-atoms", d.het_atoms),
   (str "altlocs", d.altlocs)]

/-- The success artifact of `benchmark_parsers.py` (lines 196-211): root
attributes `path`, `parse_time`, `write_time` (the time strings are opaque
formatted floats), and one child element per fingerprint field; child text is
the decimal rendering of the count, modelled by the count itself. -/
def renderSuccessXml (name rt wt : PyStr) (data : Fingerprint) : FileContent :=
  .successReport [(str "path", name), (str "parse_time", rt), (str "write_time", wt)]
    (fingerprintItems data)

/-- One iteration of the `benchmark_parsers.py` batch loop for input `fpath`:
`try` block, failure artifact on exception / success artifact otherwise, then
the `finally` block `try: os.remove('io.temp') except Exception: pass`.
`removeOk` is false when the removal itself would raise; the exception is
swallowed, so the iteration never propagates an error. -/
def processItemBP (removeOk : Bool) (o : RunOutcome) (fpath : PyStr) (fs : FS) : FS :=
  let t := tryBlockBP o fs
  let fs2 := match t.2 with
    | .error e =>
      fsWrite t.1 (with_suffix fpath (str ".failed")) (.failureReport e.msg e.trace)
    | .ok (rt, wt, data) =>
      fsWrite t.1 (with_suffix fpath (str ".xml")) (renderSuccessXml fpath rt wt data)
  if removeOk then fsRemove fs2 (str "io.temp") else fs2

/-! ## The `benchmark_PDBParser.py` batch loop -/

/-- The summary dict of `benchmark_PDBParser.py`: four counts. -/
structure PDBData where
  models : Nat
  chains : Nat
  resids : Nat
  atoms : Nat
deriving DecidableEq, Repr

/-- External-stage behaviour for one input of `benchmark_PDBParser.py`. -/
inductive RunOutcomePDB where
  | ok (read_time write_time read_memu : PyStr) (data data2 : PDBData)
  | failBeforeWrite (e : PyError)
  | failAfterWrite (e : PyError)
deriving Repr

/-- The `try` block of `benchmark_PDBParser.py`: external stages per the
oracle, then the four bare `assert` statements comparing the counts
(a bare `assert` raises `AssertionError` with an empty message). -/
def tryBlockPDB (o : RunOutcomePDB) (fs : FS) :
    FS × Except PyError (PyStr × PyStr × PyStr × PDBData) :=
  match o with
  | .failBeforeWrite e => (fs, .error e)
  | .failAfterWrite e => (fsWrite fs (str "temp.pdb") .tempFile, .error e)
  | .ok rt wt memu data data2 =>
    let fs1 := fsWrite fs (str "temp.pdb") .tempFile
    if data = data2 then (fs1, .ok (rt, wt, memu, data))
    else (fs1, .error ⟨[], assertTrace []⟩)

/-- The error raised by `os.remove('temp.pdb')` when the file is absent. -/
def fileNotFound : PyError :=
  ⟨str "FileNotFoundError: temp.pdb", str "Traceback (most recent call last):"⟩

/-- The success artifact of `benchmark_PDBParser.py` (lines 103-119): it also
records the `memory_usage` attribute, and four count children. -/
def renderSuccessXmlPDB (name rt wt memu : PyStr) (d : PDBData) : FileContent :=
  .successReport
    [(str "path", name), (str "parse_time", rt), (str "write_time", wt),
     (str "memory_usage", memu)]
    [(str "models", d.models), (str "chains", d.chains), (str "resids", d.resids),
     (str "atoms", d.atoms)]

/-- One iteration of the `benchmark_PDBParser.py` batch loop: like
`processItemBP`, but the `finally` block runs a **bare** `os.remove('temp.pdb')`
with no exception guard: when the transient file is absent the removal raises
`FileNotFoundError`, which propagates out of the iteration. -/
def processItemPDB (o : RunOutcomePDB) (fpath : PyStr) (fs : FS) : FS × Option PyError :=
  let t := tryBlockPDB o fs
  let fs2 := match t.2 with
    | .error e =>
      fsWrite t.1 (with_suffix fpath (str ".failed")) (.failureReport e.msg e.trace)
    | .ok (rt, wt, memu, data) =>
      fsWrite t.1 (with_suffix fpath (str ".results.xml"))
        (renderSuccessXmlPDB fpath rt wt memu data)
  if fsHas fs2 (str "temp.pdb") then (fsRemove fs2 (str "temp.pdb"), none)
  else (fs2, some fileNotFound)

/-- The `benchmark_PDBParser.py` batch loop: process the inputs in order; an
error propagating out of an iteration aborts the loop (nothing catches it in
`main`). -/
def runBatchPDB (oracle : PyStr → RunOutcomePDB) : List PyStr → FS → FS × Option PyError
  | [], fs => (fs, none)
  | f :: rest, fs =>
    match processItemPDB (oracle f) f fs with
    | (fs1, none) => runBatchPDB oracle rest fs1
    | (fs1, some e) => (fs1, some e)

/-- A concrete oracle: parsing `B.ent.gz` raises a `ParseError` before the
transient file is written; every other input round-trips cleanly. -/
def exOracle : PyStr → RunOutcomePDB := fun f =>
  if f == str "B.ent.gz" then
    .failBeforeWrite ⟨str "ParseError: invalid record", str "Traceback (most recent call last): ParseError"⟩
  else
    .ok (str "0.100") (str "0.200") (str "0.0") ⟨1, 1, 1, 1⟩ ⟨1, 1, 1, 1⟩

/-! ## Helper lemmas: closed forms of the counting loops -/

theorem fpAdd_zero (f : Fingerprint) : fpAdd f fpZero = f := by
  ext <;> simp [fpAdd, fpZero]

theorem fpAdd_assoc (f g h : Fingerprint) : fpAdd (fpAdd f g) h = fpAdd f (fpAdd g h) := by
  ext <;> simp [fpAdd, Nat.add_assoc]

theorem foldl_listFp {α : Type} (h : α → Fingerprint) (g : Fingerprint → α → Fingerprint)
    (hg : ∀ f x, g f x = fpAdd f (h x)) (l : List α) (f : Fingerprint) :
    l.foldl g f = fpAdd f (listFp h l) := by
  induction l generalizing f with
  | nil => simp [listFp, fpAdd_zero]
  | cons x xs ih => simp [listFp, ih, hg, ← fpAdd_assoc]

theorem foldl_countAtom (child : Residue) (atoms : List Atom) (f : Fingerprint) :
    atoms.foldl (countAtom child) f = fpAdd f (atomsFp child atoms) := by
  induction atoms generalizing f with
  | nil =>
    ext <;> simp [atomsFp, fpAdd, fpZero, countAltloc]
  | cons a as ih =>
    show as.foldl (countAtom child) (countAtom child f a) = _
    rw [ih]
    ext <;> simp [countAtom, fpAdd, atomsFp, fpZero, countAltloc] <;>
      (try split) <;> omega

theorem countChild_eq (f : Fingerprint) (child : Residue) :
    countChild f child = fpAdd f (childFp child) := by
  show child.atoms.foldl (countAtom child) _ = _
  rw [foldl_countAtom]
  ext <;> simp [childFp, fpAdd, atomsFp, fpZero]

theorem countResidueEntry_eq (f : Fingerprint) (e : ResidueEntry) :
    countResidueEntry f e = fpAdd f (entryFp e) := by
  show (disordered_children e).foldl countChild _ = _
  rw [foldl_listFp childFp countChild countChild_eq]
  ext <;> (simp [entryFp, fpAdd, fpZero]; try omega)

theorem countChain_eq (f : Fingerprint) (c : Chain) :
    countChain f c = fpAdd f (chainFp c) := by
  show c.residues.foldl countResidueEntry _ = _
  rw [foldl_listFp entryFp countResidueEntry countResidueEntry_eq]
  ext <;> (simp [chainFp, fpAdd, fpZero]; try omega)

/-- Closed form of `summarize_structure` on a structure with at least one
model: the initial counters (only `models` non-zero) plus the per-chain
contributions of the last model. -/
theorem summarize_structure_eq (s : Structure) (m : Model)
    (hm : s.models.getLast? = some m) :
    summarize_structure s =
      some (fpAdd { fpZero with models := s.models.length } (listFp chainFp m.chains)) := by
  simp only [summarize_structure, hm]
  rw [foldl_listFp chainFp countChain countChain_eq]

theorem getLast?_mem {α : Type} {l : List α} {a : α} (h : l.getLast? = some a) :
    a ∈ l := by
  induction l with
  | nil => simp at h
  | cons x xs ih =>
    cases xs with
    | nil => simp [List.getLast?] at h; simp [h]
    | cons y ys =>
      rw [List.getLast?_cons_cons] at h
      exact List.mem_cons_of_mem x (ih h)

theorem listFp_chains_childFp (l : List Residue) :
    (listFp childFp l).chains = 0 := by
  induction l with
  | nil => rfl
  | cons c cs ih => simp [listFp, fpAdd, ih, childFp, fpZero]

theorem listFp_chains_entryFp (l : List ResidueEntry) :
    (listFp entryFp l).chains = 0 := by
  induction l with
  | nil => rfl
  | cons e es ih => simp [listFp, fpAdd, ih, entryFp, fpZero, listFp_chains_childFp]

theorem listFp_chains_chainFp (l : List Chain) :
    (listFp chainFp l).chains = l.length := by
  induction l with
  | nil => rfl
  | cons c cs ih =>
    simp [listFp, fpAdd, ih, chainFp, fpZero, listFp_chains_entryFp]
    omega

/-! ## Helper lemmas: the fingerprint invariant -/

theorem fpInv_zero : FpInv fpZero := by simp [FpInv, fpZero]

theorem fpInv_add {f g : Fingerprint} (hf : FpInv f) (hg : FpInv g) :
    FpInv (fpAdd f g) := by
  obtain ⟨h1, h2, h3, h4⟩ := hf
  obtain ⟨h5, h6, h7, h8⟩ := hg
  exact ⟨by simp [fpAdd]; omega, by simp [fpAdd]; omega,
         by simp [fpAdd]; omega, by simp [fpAdd]; omega⟩

theorem countAltloc_le (atoms : List Atom) : countAltloc atoms ≤ atoms.length := by
  induction atoms with
  | nil => simp [countAltloc]
  | cons a as ih => simp [countAltloc]; split <;> omega

theorem fpInv_childFp (c : Residue) : FpInv (childFp c) := by
  refine ⟨?_, ?_, ?_, ?_⟩ <;> simp [childFp, fpZero]
  · split <;> omega
  · exact countAltloc_le c.atoms
  · split <;> omega

theorem fpInv_listFp {α : Type} (h : α → Fingerprint) (l : List α)
    (hl : ∀ x ∈ l, FpInv (h x)) : FpInv (listFp h l) := by
  induction l with
  | nil => exact fpInv_zero
  | cons x xs ih =>
    exact fpInv_add (hl x (by simp)) (ih (fun y hy => hl y (List.mem_cons_of_mem x hy)))

theorem listFp_residues_childFp (l : List Residue) :
    (listFp childFp l).residues = l.length := by
  induction l with
  | nil => rfl
  | cons c cs ih =>
    simp [listFp, fpAdd, ih, childFp, fpZero]
    omega

theorem listFp_ptmut_childFp (l : List Residue) :
    (listFp childFp l).res_ptmut = 0 := by
  induction l with
  | nil => rfl
  | cons c cs ih => simp [listFp, fpAdd, ih, childFp, fpZero]

theorem fpInv_entryFp (e : ResidueEntry) (h : disordered_children e ≠ []) :
    FpInv (entryFp e) := by
  have hc := fpInv_listFp childFp (disordered_children e) (fun x _ => fpInv_childFp x)
  obtain ⟨h1, h2, h3, h4⟩ := hc
  have hres := listFp_residues_childFp (disordered_children e)
  have hpt := listFp_ptmut_childFp (disordered_children e)
  have hlen : 1 ≤ (disordered_children e).length := by
    cases hd : disordered_children e with
    | nil => exact absurd hd h
    | cons a l => simp
  refine ⟨?_, ?_, ?_, ?_⟩ <;> simp [entryFp, fpAdd, fpZero]
  · omega
  · omega
  · omega
  · cases e with
    | ordered r => simp [is_ptmut]; omega
    | disordered vs => simp [is_ptmut]; omega

theorem fpInv_chainFp (c : Chain) (h : ∀ e ∈ c.residues, disordered_children e ≠ []) :
    FpInv (chainFp c) := by
  have := fpInv_listFp entryFp c.residues (fun e he => fpInv_entryFp e (h e he))
  obtain ⟨h1, h2, h3, h4⟩ := this
  refine ⟨?_, ?_, ?_, ?_⟩ <;> simp [chainFp, fpAdd, fpZero] <;> omega

/-! ## Helper lemmas: the filesystem model -/

theorem fsRemove_cons_hit (a : PyStr × FileContent) (fs : FS) (p : PyStr)
    (hb : (a.1 == p) = true) : fsRemove (a :: fs) p = fsRemove fs p := by
  simp [fsRemove, List.filter_cons, hb]

theorem fsRemove_cons_miss (a : PyStr × FileContent) (fs : FS) (p : PyStr)
    (hb : (a.1 == p) = false) : fsRemove (a :: fs) p = a :: fsRemove fs p := by
  simp [fsRemove, List.filter_cons, hb]

theorem fsHas_fsRemove_self (fs : FS) (p : PyStr) : fsHas (fsRemove fs p) p = false := by
  induction fs with
  | nil => rfl
  | cons a fs ih =>
    cases hb : (a.1 == p) with
    | true => rw [fsRemove_cons_hit a fs p hb]; exact ih
    | false =>
      rw [fsRemove_cons_miss a fs p hb]
      show ((a.1 == p) || fsHas (fsRemove fs p) p) = false
      rw [hb, ih]
      rfl

theorem fsGet_fsRemove_ne (fs : FS) (p q : PyStr) (h : q ≠ p) :
    fsGet (fsRemove fs p) q = fsGet fs q := by
  induction fs with
  | nil => rfl
  | cons a fs ih =>
    cases hb : (a.1 == p) with
    | true =>
      have hq : (a.1 == q) = false := by
        have hap : a.1 = p := by simpa using hb
        rw [hap]
        exact beq_eq_false_iff_ne.mpr (Ne.symm h)
      rw [fsRemove_cons_hit a fs p hb, ih]
      simp [fsGet, List.find?, hq]
    | false =>
      rw [fsRemove_cons_miss a fs p hb]
      cases hq : (a.1 == q) with
      | true => simp [fsGet, List.find?, hq]
      | false =>
        simpa [fsGet, List.find?, hq] using ih

/-! ## Concrete inputs used by counterexamples and witnesses -/

/-- An atom with a blank altloc. -/
def exAtom : Atom := ⟨[]⟩

/-- A standard residue variant with two atoms. -/
def exVariant : Residue := ⟨str " ", ' ', [exAtom, exAtom]⟩

/-- A disordered residue group with three variants of two atoms each. -/
def exEntry : ResidueEntry := .disordered [exVariant, exVariant, exVariant]

/-- A chain holding just the disordered group. -/
def exCh : Chain := ⟨[exEntry]⟩

/-- A one-chain model. -/
def exM : Model := ⟨[exCh]⟩

/-- A one-model structure holding one disordered group of three variants. -/
def exS1 : Structure := ⟨[exM]⟩

/-- A model with one (empty) chain. -/
def exM3a : Model := ⟨[⟨[]⟩]⟩

/-- A model with two (empty) chains. -/
def exM3b : Model := ⟨[⟨[]⟩, ⟨[]⟩]⟩

/-- A structure whose first model has one chain and whose last has two. -/
def exS3 : Structure := ⟨[exM3a, exM3b]⟩

/-- A directory listing with inputs A, B, C, a success artifact for B only and
a stale failure artifact for C. -/
def exFolder : List PyStr :=
  [str "C.failed", str "B.xml", str "C.gz", str "A.gz", str "B.gz"]

/-- Attribute keys of a success artifact. -/
def reportAttrKeys : FileContent → List PyStr
  | .successReport attrs _ => attrs.map Prod.fst
  | _ => []

/-- Child-element keys of a success artifact. -/
def reportChildKeys : FileContent → List PyStr
  | .successReport _ cs => cs.map Prod.fst
  | _ => []

/-! ## Claim theorems -/

/-- C1: for every structure whose traversed model consists of a single chain
holding one disordered residue group with three variants of two atoms each,
`summarize_structure` counts `residues = 3`, `res_ptmut = 1` (once per
disordered group, not once per variant) and `all_atoms = 6`. -/
theorem claim1_disordered_group_counts (s : Structure) (m : Model) (ch : Chain)
    (v1 v2 v3 : Residue)
    (hm : s.models.getLast? = some m)
    (hch : m.chains = [ch])
    (hres : ch.residues = [ResidueEntry.disordered [v1, v2, v3]])
    (h1 : v1.atoms.length = 2) (h2 : v2.atoms.length = 2) (h3 : v3.atoms.length = 2) :
    ∃ f, summarize_structure s = some f ∧
      f.residues = 3 ∧ f.res_ptmut = 1 ∧ f.all_atoms = 6 := by
  refine ⟨_, summarize_structure_eq s m hm, ?_, ?_, ?_⟩ <;>
    simp [hch, hres, listFp, chainFp, entryFp, childFp, fpAdd, fpZero, is_ptmut,
      disordered_children, h1, h2, h3]

/-- Witness for C1 at a concrete structure. -/
theorem claim1_witness :
    ∃ f, summarize_structure exS1 = some f ∧
      f.residues = 3 ∧ f.res_ptmut = 1 ∧ f.all_atoms = 6 :=
  claim1_disordered_group_counts exS1 exM exCh exVariant exVariant exVariant
    (by decide) (by decide) (by decide) (by decide) (by decide) (by decide)

/-- C2: on a structure with zero models, `summarize_structure` does not return
an all-zero fingerprint: the chain loop dereferences the never-bound loop
variable `model` and Python raises `UnboundLocalError`, modelled as `none`. -/
theorem claim2_zero_models_raises (s : Structure) (h : s.models = []) :
    summarize_structure s = none := by
  simp [summarize_structure, h]

/-- Witness for C2 at the empty structure. -/
theorem claim2_witness : summarize_structure ⟨[]⟩ = none :=
  claim2_zero_models_raises ⟨[]⟩ rfl

/-- C3 counterexample: on a structure whose first model has one chain and
whose last model has two, the `chains` field is 2, not the first model's
chain count 1: the loop variable reuse makes the code traverse the last
model, not the first. -/
theorem claim3_counterexample :
    (summarize_structure exS3).map Fingerprint.chains = some 2 ∧
    exS3.models.head?.map (fun mo => mo.chains.length) = some 1 ∧
    (summarize_structure exS3).map Fingerprint.chains ≠
      exS3.models.head?.map (fun mo => mo.chains.length) := by
  decide

/-- C3 amended: for every structure with at least one model, the `chains`
field equals the number of chains under the **last** model (which coincides
with the first model's count whenever the models are structurally alike). -/
theorem claim3_chains_of_last_model (s : Structure) (m : Model)
    (hm : s.models.getLast? = some m) :
    (summarize_structure s).map Fingerprint.chains = some m.chains.length := by
  rw [summarize_structure_eq s m hm]
  simp [fpAdd, fpZero, listFp_chains_chainFp]

/-- Witness for the amended C3 at a concrete structure. -/
theorem claim3_witness :
    (summarize_structure exS3).map Fingerprint.chains = some exM3b.chains.length :=
  claim3_chains_of_last_model exS3 exM3b (by decide)

/-- C4: the round-trip comparison succeeds exactly when the two fingerprints
are equal; on any mismatch it raises an error whose message interpolates both
complete fingerprints (every field name with its two values), and a mismatch
is never swallowed. -/
theorem claim4_mismatch_check (data data2 : Fingerprint) :
    (checkRoundTrip data data2 = .ok () ↔ data = data2) ∧
    (data ≠ data2 → checkRoundTrip data data2 = .error (mismatchMsg data data2)) := by
  refine ⟨⟨fun h => ?_, fun h => ?_⟩, fun h => ?_⟩
  · by_contra hne
    simp [checkRoundTrip, hne] at h
  · simp [checkRoundTrip, h]
  · simp [checkRoundTrip, h]

/-- Witness for C4 at a concrete mismatching pair. -/
theorem claim4_witness :
    (⟨0, 0, 0, 0, 0, 0, 0, 0⟩ : Fingerprint) ≠ ⟨0, 0, 1, 0, 0, 0, 0, 0⟩ ∧
    checkRoundTrip ⟨0, 0, 0, 0, 0, 0, 0, 0⟩ ⟨0, 0, 1, 0, 0, 0, 0, 0⟩ =
      .error (mismatchMsg ⟨0, 0, 0, 0, 0, 0, 0, 0⟩ ⟨0, 0, 1, 0, 0, 0, 0, 0⟩) :=
  ⟨by decide, (claim4_mismatch_check _ _).2 (by decide)⟩

/-- C5: with resume active, a directory whose inputs are `A.gz`, `B.gz`,
`C.gz` and whose only success artifact is `B.xml` yields the work queue
`[A.gz, C.gz]` in sorted order; `B.gz` is not re-processed, and `.failed`
artifacts never match the `*.xml` glob, so they leave the queue unchanged. -/
theorem claim5_resume_queue (folder : List PyStr)
    (hgz : rglob folder (str ".gz") = [str "A.gz", str "B.gz", str "C.gz"])
    (hxml : rglob folder (str ".xml") = [str "B.xml"]) :
    buildQueue false folder = [str "A.gz", str "C.gz"] ∧
    str "B.gz" ∉ buildQueue false folder := by
  have hq : buildQueue false folder = [str "A.gz", str "C.gz"] := by
    simp only [buildQueue, hgz, hxml]
    decide
  rw [hq]
  exact ⟨rfl, by decide⟩

/-- Witness for C5 at a concrete directory that also holds a stale failure
artifact `C.failed`: `C.gz` stays in the queue. -/
theorem claim5_witness :
    buildQueue false exFolder = [str "A.gz", str "C.gz"] ∧
    str "B.gz" ∉ buildQueue false exFolder :=
  claim5_resume_queue exFolder (by decide) (by decide)

/-- C6: evaluation of the `benchmark_PDBParser.py` batch loop on inputs
`[A, B, C]` where parsing B raises before the transient file is written.
A is processed and reported; B's failure artifact is written; but the
unguarded `os.remove('temp.pdb')` in the `finally` block then raises
`FileNotFoundError`, the batch aborts, and C is never processed — the
claimed fault isolation fails in this script (the consolidated
`benchmark_parsers.py` guards the removal instead). -/
theorem claim6_pdbparser_abort :
    (runBatchPDB exOracle [str "A.ent.gz", str "B.ent.gz", str "C.ent.gz"] []).2 =
      some fileNotFound ∧
    fsHas (runBatchPDB exOracle [str "A.ent.gz", str "B.ent.gz", str "C.ent.gz"] []).1
      (str "A.ent.results.xml") = true ∧
    fsGet (runBatchPDB exOracle [str "A.ent.gz", str "B.ent.gz", str "C.ent.gz"] []).1
      (str "B.ent.failed") =
      some (.failureReport (str "ParseError: invalid record")
        (str "Traceback (most recent call last): ParseError")) ∧
    fsHas (runBatchPDB exOracle [str "A.ent.gz", str "B.ent.gz", str "C.ent.gz"] []).1
      (str "C.ent.results.xml") = false ∧
    fsHas (runBatchPDB exOracle [str "A.ent.gz", str "B.ent.gz", str "C.ent.gz"] []).1
      (str "C.ent.failed") = false := by
  decide

/-- C7: after one item of `benchmark_parsers.py`, whatever the oracle did, the
transient `io.temp` is absent when the guarded removal succeeds; when the
removal fails, the swallowed exception leaves every other path — in particular
the item's recorded success or failure artifact — exactly as in the successful
removal run.  The `benchmark_PDBParser.py` iteration also never ends with
`temp.pdb` on disk (when absent, its bare removal raises instead). -/
theorem claim7_cleanup (o : RunOutcome) (o2 : RunOutcomePDB) (fpath : PyStr) (fs : FS) :
    fsHas (processItemBP true o fpath fs) (str "io.temp") = false ∧
    (∀ p : PyStr, p ≠ str "io.temp" →
      fsGet (processItemBP false o fpath fs) p =
        fsGet (processItemBP true o fpath fs) p) ∧
    fsHas (processItemPDB o2 fpath fs).1 (str "temp.pdb") = false := by
  refine ⟨?_, ?_, ?_⟩
  · show fsHas (fsRemove _ _) _ = false
    exact fsHas_fsRemove_self _ _
  · intro p hp
    show fsGet _ p = fsGet (fsRemove _ _) p
    exact (fsGet_fsRemove_ne _ _ _ hp).symm
  · simp only [processItemPDB]
    split
    · exact fsHas_fsRemove_self _ _
    · next h => simpa using h

/-- Witness for C7 at a concrete item and outcome. -/
theorem claim7_witness :
    fsHas (processItemBP true (.failBeforeWrite ⟨str "boom", str "trace"⟩)
      (str "A.gz") []) (str "io.temp") = false ∧
    fsGet (processItemBP false (.failBeforeWrite ⟨str "boom", str "trace"⟩)
      (str "A.gz") []) (str "A.failed") =
      fsGet (processItemBP true (.failBeforeWrite ⟨str "boom", str "trace"⟩)
        (str "A.gz") []) (str "A.failed") ∧
    fsHas (processItemPDB (.failBeforeWrite ⟨str "boom", str "trace"⟩)
      (str "A.ent.gz") []).1 (str "temp.pdb") = false := by
  obtain ⟨ha, hb, hc⟩ := claim7_cleanup (.failBeforeWrite ⟨str "boom", str "trace"⟩)
    (.failBeforeWrite ⟨str "boom", str "trace"⟩) (str "A.gz") []
  refine ⟨ha, hb (str "A.failed") (by decide), ?_⟩
  exact (claim7_cleanup (.failBeforeWrite ⟨str "boom", str "trace"⟩)
    (.failBeforeWrite ⟨str "boom", str "trace"⟩) (str "A.ent.gz") []).2.2

/-- C8 counterexample: the success artifact `benchmark_parsers.py` writes has
only the attributes `path`, `parse_time`, `write_time` and the eight count
children — no memory-delta value anywhere, contrary to the claim. -/
theorem claim8_counterexample :
    reportAttrKeys (renderSuccessXml (str "1abc.pdb.gz") (str "0.100") (str "0.200")
      ⟨1, 2, 10, 0, 1, 50, 3, 4⟩) = [str "path", str "parse_time", str "write_time"] ∧
    str "memory_usage" ∉ reportAttrKeys (renderSuccessXml (str "1abc.pdb.gz")
      (str "0.100") (str "0.200") ⟨1, 2, 10, 0, 1, 50, 3, 4⟩) ∧
    str "memory_usage" ∉ reportChildKeys (renderSuccessXml (str "1abc.pdb.gz")
      (str "0.100") (str "0.200") ⟨1, 2, 10, 0, 1, 50, 3, 4⟩) := by
  decide

/-- C8 amended: the `benchmark_parsers.py` success artifact contains the input
identity, the parse and write durations, and every one of the eight
fingerprint fields as a named value in stable field order — but no memory
delta (only `benchmark_PDBParser.py` records one, with four count fields). -/
theorem claim8_report_fields (name rt wt : PyStr) (data : Fingerprint) :
    renderSuccessXml name rt wt data =
      .successReport
        [(str "path", name), (str "parse_time", rt), (str "write_time", wt)]
        [(str "models", data.models), (str "chains", data.chains),
         (str "residues", data.residues), (str "res-icode", data.res_icode),
         (str "res-ptmut", data.res_ptmut), (str "all-atoms", data.all_atoms),
         (str "het-atoms", data.het_atoms), (str "altlocs", data.altlocs)] := rfl

/-- C9: `summarize_structure` is a pure function of the structure value, so
two applications to the same unmutated structure yield the same fingerprint. -/
theorem claim9_idempotent (s : Structure) (f1 f2 : Fingerprint)
    (h1 : summarize_structure s = some f1) (h2 : summarize_structure s = some f2) :
    f1 = f2 := by
  rw [h1] at h2
  exact Option.some.inj h2

/-- Witness for C9 at a concrete structure. -/
theorem claim9_witness : (⟨1, 1, 3, 0, 1, 6, 0, 0⟩ : Fingerprint) = ⟨1, 1, 3, 0, 1, 6, 0, 0⟩ :=
  claim9_idempotent exS1 ⟨1, 1, 3, 0, 1, 6, 0, 0⟩ ⟨1, 1, 3, 0, 1, 6, 0, 0⟩
    (by decide) (by decide)

/-- C10: every fingerprint the code returns (counters live in ℕ, so all eight
fields are non-negative by type) satisfies `het_atoms ≤ all_atoms`,
`altlocs ≤ all_atoms`, `res_icode ≤ residues` and `res_ptmut ≤ residues`, for
every structure whose disordered groups are non-empty — the shape Bio.PDB
always produces, since a `DisorderedResidue` is created by adding its first
variant. -/
theorem claim10_invariants (s : Structure) (f : Fingerprint)
    (hwf : wfStructure s) (h : summarize_structure s = some f) :
    f.het_atoms ≤ f.all_atoms ∧ f.altlocs ≤ f.all_atoms ∧
    f.res_icode ≤ f.residues ∧ f.res_ptmut ≤ f.residues := by
  cases hg : s.models.getLast? with
  | none =>
    rw [summarize_structure, hg] at h
    cases h
  | some m =>
    rw [summarize_structure_eq s m hg] at h
    injection h with h
    subst h
    have hm : m ∈ s.models := getLast?_mem hg
    have hinv : FpInv (listFp chainFp m.chains) :=
      fpInv_listFp chainFp m.chains
        (fun c hc => fpInv_chainFp c (fun e he => hwf m hm c hc e he))
    have hinit : FpInv { fpZero with models := s.models.length } := by
      refine ⟨?_, ?_, ?_, ?_⟩ <;> simp [fpZero]
    exact fpInv_add hinit hinv

/-- Witness for C10 at a concrete well-formed structure. -/
theorem claim10_witness :
    (⟨1, 1, 3, 0, 1, 6, 0, 0⟩ : Fingerprint).het_atoms ≤
      (⟨1, 1, 3, 0, 1, 6, 0, 0⟩ : Fingerprint).all_atoms ∧
    (⟨1, 1, 3, 0, 1, 6, 0, 0⟩ : Fingerprint).altlocs ≤
      (⟨1, 1, 3, 0, 1, 6, 0, 0⟩ : Fingerprint).all_atoms ∧
    (⟨1, 1, 3, 0, 1, 6, 0, 0⟩ : Fingerprint).res_icode ≤
      (⟨1, 1, 3, 0, 1, 6, 0, 0⟩ : Fingerprint).residues ∧
    (⟨1, 1, 3, 0, 1, 6, 0, 0⟩ : Fingerprint).res_ptmut ≤
      (⟨1, 1, 3, 0, 1, 6, 0, 0⟩ : Fingerprint).residues :=
  claim10_invariants exS1 ⟨1, 1, 3, 0, 1, 6, 0, 0⟩ (by unfold wfStructure; decide) (by decide)

end BioPDB
